import Mathlib

/-!
Verification of the Smart-Posture-Monitor posture/attention engine.

The repository has two parallel implementations of the engine:
`app/app.py` (front camera, torso-frame features) and `app/side_view.py`
(side camera, 3-point joint angles).  We embed both shallowly.

Conventions of the embedding:
* Coordinates, confidences and timestamps are rationals (`ℚ`).  Python
  floats are modelled exactly on the rational inputs used in the theorems.
* `math.sqrt` (via `np.linalg.norm`) and `math.degrees(math.atan2 _ _)`
  are transcendental; they are supplied through a `FloatMath` record.
  Every concrete `FloatMath` used in a theorem agrees with the Python
  functions at every argument it is actually applied to.
* Rational division by zero yields `0` in Lean; in the source the
  corresponding float division yields a non-finite value (numpy warns,
  never raises).  Both are "a value, not `None`", which is the only fact
  the theorems use about such divisions.
* Python truthiness of optional floats (`if x:` with `x: Optional[float]`)
  is modelled by `pyTruthyOpt`: `None` and `0.0` are falsy.
* Python's short-circuit `a and b` on an optional float `a` and bool `b`
  returns `None`, `0.0` or a bool; the result is modelled by the `Py`
  dynamic-value type and `badAlertPy`.
-/

/-- A MoveNet keypoint `(y, x, confidence)` in normalized image coordinates. -/
structure Keypoint where
  y : ℚ
  x : ℚ
  conf : ℚ
deriving DecidableEq

/-- A pose: 17 keypoints in fixed COCO order (0 nose, 1/2 eyes, 3/4 ears,
5/6 shoulders, 7/8 elbows, 9/10 wrists, 11/12 hips, 13/14 knees, 15/16 ankles). -/
abbrev Pose := Fin 17 → Keypoint

/-- Source `kp[:2]`: the 2D point `(y, x)` of a keypoint. -/
def pt (kp : Keypoint) : ℚ × ℚ := (kp.y, kp.x)

/-- The float math functions called by the source. `sqrt q` stands for
`math.sqrt(q)` (equivalently `np.linalg.norm` applied to a vector of
squared norm `q`), and `atan2deg y x` stands for
`math.degrees(math.atan2(y, x))`. -/
structure FloatMath where
  sqrt : ℚ → ℚ
  atan2deg : ℚ → ℚ → ℚ

/-- Source `np.linalg.norm` of a 2D vector. -/
def norm2 (M : FloatMath) (v : ℚ × ℚ) : ℚ := M.sqrt (v.1 ^ 2 + v.2 ^ 2)

/-- A Python runtime value as returned for the `bad_alert` slot:
`None`, a bool, or a float. -/
inductive Py where
  | pnone : Py
  | pbool : Bool → Py
  | pfloat : ℚ → Py
deriving DecidableEq

/-- Python truthiness of a `Py` value. -/
def Py.truthy : Py → Bool
  | .pnone => false
  | .pbool b => b
  | .pfloat q => decide (q ≠ 0)

/-- Whether a `Py` value is an actual bool. -/
def Py.isBool : Py → Bool
  | .pbool _ => true
  | _ => false

/-- Python truthiness of an `Optional[float]`: `None` and `0.0` are falsy. -/
def pyTruthyOpt : Option ℚ → Bool
  | none => false
  | some v => decide (v ≠ 0)

/-- The value of Python `bs and (now - bs > thresh)` for an optional float
`bs`: `and` returns its left operand when that is falsy (`None` or `0.0`),
otherwise the boolean comparison. -/
def badAlertPy (bs : Option ℚ) (now thresh : ℚ) : Py :=
  match bs with
  | none => .pnone
  | some t => if t = 0 then .pfloat 0 else .pbool (decide (now - t > thresh))

namespace App

/-! Embedding of `app/app.py` (front-view engine). -/

def MIN_KP_CONF : ℚ := 2/5

def BAD_POSTURE_ALERT_TIME : ℚ := 10

def SEATED_ALERT_TIME : ℚ := 45 * 60

def FOCUS_MIN_TIME : ℚ := 5 * 60

def NECK_FLEX_BAD : ℚ := 18

def TORSO_COMP_BAD : ℚ := 8/5

def TORSO_ROLL_BAD : ℚ := 12

def HEAD_MOVEMENT_THRESH : ℚ := 3

def W_NECK : ℚ := 2/5

def W_TORSO : ℚ := 2/5

def W_ROLL : ℚ := 1/5

/-- Source `valid(kp)`: confidence strictly above `MIN_KP_CONF`. -/
def valid (kp : Keypoint) : Bool := decide (kp.conf > MIN_KP_CONF)

/-- Source `midpoint(p1, p2)`. -/
def midpoint (p1 p2 : ℚ × ℚ) : ℚ × ℚ := ((p1.1 + p2.1) / 2, (p1.2 + p2.2) / 2)

/-- Source `torso_frame(keypoints)`: returns `(hip_mid, x_axis, y_axis)`; the axes
are normalized by their norms (an unguarded division: a zero norm divides
by zero, which in the source produces non-finite floats, and here the
rational convention `q / 0 = 0`). -/
def torso_frame (M : FloatMath) (kps : Pose) : (ℚ × ℚ) × (ℚ × ℚ) × (ℚ × ℚ) :=
  let l_sh := pt (kps 5)
  let r_sh := pt (kps 6)
  let l_hip := pt (kps 11)
  let r_hip := pt (kps 12)
  let shoulder_mid := midpoint l_sh r_sh
  let hip_mid := midpoint l_hip r_hip
  let yv := (shoulder_mid.1 - hip_mid.1, shoulder_mid.2 - hip_mid.2)
  let ny := norm2 M yv
  let y_axis := (yv.1 / ny, yv.2 / ny)
  let xv := (r_sh.1 - l_sh.1, r_sh.2 - l_sh.2)
  let nx := norm2 M xv
  let x_axis := (xv.1 / nx, xv.2 / nx)
  (hip_mid, x_axis, y_axis)

/-- Source `to_torso_coords(point, origin, x_axis, y_axis)`. -/
def to_torso_coords (p origin x_axis y_axis : ℚ × ℚ) : ℚ × ℚ :=
  let v := (p.1 - origin.1, p.2 - origin.2)
  (v.1 * x_axis.1 + v.2 * x_axis.2, v.1 * y_axis.1 + v.2 * y_axis.2)

/-- Source `neck_flexion(keypoints)`: `None` unless nose, both shoulders and both
hips are all valid; otherwise `abs(degrees(atan2(v[0], v[1])))` of the nose
in torso coordinates. -/
def neck_flexion (M : FloatMath) (kps : Pose) : Option ℚ :=
  if valid (kps 0) && valid (kps 5) && valid (kps 6) && valid (kps 11) && valid (kps 12) then
    let f := torso_frame M kps
    let v := to_torso_coords (pt (kps 0)) f.1 f.2.1 f.2.2
    some |M.atan2deg v.1 v.2|
  else
    none

/-- Source `torso_compression(keypoints)`: `torso_h / shoulder_w` when
`shoulder_w > 0`, else `None`.  Note: no confidence check at all. -/
def torso_compression (M : FloatMath) (kps : Pose) : Option ℚ :=
  let l_sh := pt (kps 5)
  let r_sh := pt (kps 6)
  let l_hip := pt (kps 11)
  let r_hip := pt (kps 12)
  let shoulder_w := norm2 M (l_sh.1 - r_sh.1, l_sh.2 - r_sh.2)
  let sm := midpoint l_sh r_sh
  let hm := midpoint l_hip r_hip
  let torso_h := norm2 M (sm.1 - hm.1, sm.2 - hm.2)
  if shoulder_w > 0 then some (torso_h / shoulder_w) else none

/-- Source `torso_roll(keypoints)`: `abs(degrees(atan2(dy, dx)))` of the
shoulder-to-shoulder line. Always returns a value (no confidence check). -/
def torso_roll (M : FloatMath) (kps : Pose) : ℚ :=
  let l_sh := pt (kps 5)
  let r_sh := pt (kps 6)
  let dx := r_sh.2 - l_sh.2
  let dy := r_sh.1 - l_sh.1
  |M.atan2deg dy dx|

/-- Source `subscore(val, thresh, invert)`. -/
def subscore (val : Option ℚ) (thresh : ℚ) (invert : Bool) : ℚ :=
  match val with
  | none => 1/2
  | some v => if invert then min 1 (v / thresh) else max 0 (1 - v / thresh)

/-- The dictionary returned by `posture_score`; the `subscores` entries
are stored as the three fields `neckSub`, `torsoSub`, `rollSub`. -/
structure ScoreResult where
  score : ℚ
  classification : String
  neckSub : ℚ
  torsoSub : ℚ
  rollSub : ℚ
  reasons : List String
deriving DecidableEq

/-- Source `posture_score(keypoints)`.  The reason guards `if neck and ...` and
`if comp and ...` use Python truthiness of the optional float (`None` and
`0.0` are falsy), modelled by `pyTruthyOpt`. -/
def posture_score (M : FloatMath) (kps : Pose) : ScoreResult :=
  let neck := neck_flexion M kps
  let comp := torso_compression M kps
  let roll := torso_roll M kps
  let s_neck := subscore neck NECK_FLEX_BAD false
  let s_torso := subscore comp TORSO_COMP_BAD true
  let s_roll := subscore (some roll) TORSO_ROLL_BAD false
  let score := (W_NECK * s_neck + W_TORSO * s_torso + W_ROLL * s_roll) * 100
  let classification := if score ≥ 60 then "GOOD" else "BAD"
  let reasons :=
    (if pyTruthyOpt neck && decide (neck.getD 0 > NECK_FLEX_BAD) then ["Forward Head"] else []) ++
    (if pyTruthyOpt comp && decide (comp.getD 0 < TORSO_COMP_BAD) then ["Slouching"] else []) ++
    (if decide (roll > TORSO_ROLL_BAD) then ["Lateral Lean"] else [])
  ⟨score, classification, s_neck * 100, s_torso * 100, s_roll * 100, reasons⟩

/-- Mutable state of `PostureMonitor` (front view). -/
structure MonitorState where
  bad_start : Option ℚ
  seated_start : ℚ
  last_head : Option ℚ
  last_move : ℚ
deriving DecidableEq

/-- Source `PostureMonitor.__init__` at wall-clock time `now`. -/
def init (now : ℚ) : MonitorState := ⟨none, now, none, now⟩

/-- The post-state and the four returned values of
`PostureMonitor.update`. -/
structure UpdateResult where
  state : MonitorState
  data : ScoreResult
  badAlert : Py
  seatedAlert : Bool
  focused : Bool
deriving DecidableEq

/-- Source `PostureMonitor.update(keypoints)` at wall-clock time `now`.
`self.bad_start = self.bad_start or now` keeps a truthy `bad_start` and
otherwise stores `now`; `bad_alert = self.bad_start and (...)` is the
Python `and` value `badAlertPy`.  The focus block runs only when
`neck_flexion` returned a value, and its movement test
`if self.last_head and ...` again uses Python truthiness. -/
def update (M : FloatMath) (s : MonitorState) (kps : Pose) (now : ℚ) : UpdateResult :=
  let data := posture_score M kps
  let bad := decide (data.score < 60)
  let bs1 : Option ℚ :=
    if bad then (if pyTruthyOpt s.bad_start then s.bad_start else some now) else none
  let bAlert := badAlertPy bs1 now BAD_POSTURE_ALERT_TIME
  let sAlert := decide (now - s.seated_start > SEATED_ALERT_TIME)
  match neck_flexion M kps with
  | none =>
      ⟨⟨bs1, s.seated_start, s.last_head, s.last_move⟩, data, bAlert, sAlert, false⟩
  | some v =>
      let lm :=
        if pyTruthyOpt s.last_head && decide (|v - s.last_head.getD 0| > HEAD_MOVEMENT_THRESH)
        then now else s.last_move
      ⟨⟨bs1, s.seated_start, some v, lm⟩, data, bAlert, sAlert,
        decide (now - lm > FOCUS_MIN_TIME)⟩

end App

namespace Side

/-! Embedding of `app/side_view.py` (side-view engine). -/

def MIN_KP_CONF : ℚ := 3/10

def BAD_POSTURE_ALERT_TIME : ℚ := 10

def SEATED_ALERT_TIME : ℚ := 45 * 60

def FOCUS_MIN_TIME : ℚ := 5 * 60

def NECK_FORWARD_MIN : ℚ := 160

def NECK_FORWARD_MAX : ℚ := 180

def NECK_BACKWARD_MIN : ℚ := 180

def NECK_BACKWARD_MAX : ℚ := 190

def TORSO_FORWARD_MIN : ℚ := 80

def TORSO_FORWARD_MAX : ℚ := 90

def TORSO_BACKWARD_MIN : ℚ := 90

def TORSO_BACKWARD_MAX : ℚ := 105

def EYE_EAR_SHOULDER_ANGLE_THRESH : ℚ := 3

def NECK_FORWARD_TOLERANCE : ℚ := NECK_FORWARD_MAX - NECK_FORWARD_MIN

def NECK_BACKWARD_TOLERANCE : ℚ := NECK_BACKWARD_MAX - NECK_BACKWARD_MIN

def TORSO_FORWARD_TOLERANCE : ℚ := TORSO_FORWARD_MAX - TORSO_FORWARD_MIN

def TORSO_BACKWARD_TOLERANCE : ℚ := TORSO_BACKWARD_MAX - TORSO_BACKWARD_MIN

def W_NECK : ℚ := 1/2

def W_TORSO : ℚ := 1/2

/-- Sum of confidences of the LEFT-side eye (1), ear (3), shoulder (5),
hip (11) and knee (13), as in `detect_side`. -/
def leftConf (kps : Pose) : ℚ :=
  (kps 1).conf + (kps 3).conf + (kps 5).conf + (kps 11).conf + (kps 13).conf

/-- Sum of confidences of the RIGHT-side eye (2), ear (4), shoulder (6),
hip (12) and knee (14), as in `detect_side`. -/
def rightConf (kps : Pose) : ℚ :=
  (kps 2).conf + (kps 4).conf + (kps 6).conf + (kps 12).conf + (kps 14).conf

/-- Source `detect_side(keypoints)`: `'LEFT' if left_conf >= right_conf else 'RIGHT'`. -/
def detect_side (kps : Pose) : String :=
  if leftConf kps ≥ rightConf kps then "LEFT" else "RIGHT"

/-- The five keypoints returned by `get_side_keypoints`. -/
structure SideKps where
  eye : Keypoint
  ear : Keypoint
  shoulder : Keypoint
  hip : Keypoint
  knee : Keypoint
deriving DecidableEq

/-- Source `get_side_keypoints(keypoints, side)` using `LEFT_INDICES` /
`RIGHT_INDICES`. -/
def get_side_keypoints (kps : Pose) (side : String) : SideKps :=
  if side = "LEFT" then ⟨kps 1, kps 3, kps 5, kps 11, kps 13⟩
  else ⟨kps 2, kps 4, kps 6, kps 12, kps 14⟩

/-- Source `calculate_angle(p1, p2, p3)`: signed angle at `p2`, in degrees,
normalized to `[0, 360)`.  The source computes both leg directions with
`math.atan2` in radians, subtracts, then converts with `math.degrees`;
since `degrees` is linear, taking each leg already in degrees
(`atan2deg`) and subtracting is the same value. -/
def calculate_angle (M : FloatMath) (p1 p2 p3 : ℚ × ℚ) : ℚ :=
  let v1 := (p1.1 - p2.1, p1.2 - p2.2)
  let v2 := (p3.1 - p2.1, p3.2 - p2.2)
  let a1 := M.atan2deg v1.2 v1.1
  let a2 := M.atan2deg v2.2 v2.1
  let d := a2 - a1
  if d < 0 then d + 360 else d

/-- Mutable state of `PostureMonitor` (side view). -/
structure MonitorState where
  bad_start : Option ℚ
  seated_start : ℚ
  last_eye_ear_shoulder_angle : Option ℚ
  last_move : ℚ
  detected_side : Option String
deriving DecidableEq

/-- Source `PostureMonitor.__init__` at wall-clock time `now`. -/
def init (now : ℚ) : MonitorState := ⟨none, now, none, now, none⟩

/-- The data dictionary of a non-gated side-view update.  The reason
strings drop the interpolated angle value of the source (pure float
formatting): `"Neck Forward"` stands for `f"Neck Forward (angle: ...)"`,
and so on. -/
structure SideData where
  score : ℚ
  classification : String
  neckSub : ℚ
  torsoSub : ℚ
  reasons : List String
  neck_angle : ℚ
  torso_angle : ℚ
  eye_ear_shoulder_angle : ℚ
deriving DecidableEq

/-- The post-state and the five returned values of the side-view
`PostureMonitor.update`; `data = none` models the `return None, False,
False, False, side_kps` path taken when a required keypoint is below the
confidence threshold. -/
structure UpdateResult where
  state : MonitorState
  data : Option SideData
  badAlert : Py
  seatedAlert : Bool
  focused : Bool
  sideKps : SideKps
deriving DecidableEq

/-- The confidence gate of the side-view `update`: ear, shoulder, hip or
knee of the detected side strictly below `MIN_KP_CONF` (the eye is not
checked). -/
def gateFails (kps : Pose) : Prop :=
  let sk := get_side_keypoints kps (detect_side kps)
  sk.ear.conf < MIN_KP_CONF ∨ sk.shoulder.conf < MIN_KP_CONF ∨
    sk.hip.conf < MIN_KP_CONF ∨ sk.knee.conf < MIN_KP_CONF

instance (kps : Pose) : Decidable (gateFails kps) := by
  unfold gateFails; infer_instance

/-- The early-return branch of the side-view `update`: `self.detected_side`
was already assigned, everything else is untouched, and the call returns
`None, False, False, False, side_kps`. -/
def gatedResult (s : MonitorState) (kps : Pose) : UpdateResult :=
  ⟨⟨s.bad_start, s.seated_start, s.last_eye_ear_shoulder_angle, s.last_move,
      some (detect_side kps)⟩,
    none, .pbool false, false, false, get_side_keypoints kps (detect_side kps)⟩

/-- The main branch of the side-view `update` (all gated keypoints at or
above the confidence threshold); split out of `update` only to name it. -/
def updateBody (M : FloatMath) (s : MonitorState) (kps : Pose) (now : ℚ) : UpdateResult :=
  let sk := get_side_keypoints kps (detect_side kps)
  let neck_angle := calculate_angle M (pt sk.ear) (pt sk.shoulder) (pt sk.hip)
    let torso_angle := calculate_angle M (pt sk.shoulder) (pt sk.hip) (pt sk.knee)
    let eea := calculate_angle M (pt sk.eye) (pt sk.ear) (pt sk.shoulder)
    let neck_in_range := NECK_FORWARD_MAX ≤ neck_angle ∧ neck_angle ≤ NECK_BACKWARD_MIN
    let s_neck :=
      if neck_in_range then 1
      else if neck_angle < NECK_FORWARD_MAX then
        max 0 (1 - (NECK_FORWARD_MAX - neck_angle) / NECK_FORWARD_TOLERANCE)
      else
        max 0 (1 - (neck_angle - NECK_BACKWARD_MIN) / NECK_BACKWARD_TOLERANCE)
    let torso_in_range := TORSO_FORWARD_MAX ≤ torso_angle ∧ torso_angle ≤ TORSO_BACKWARD_MIN
    let s_torso :=
      if torso_in_range then 1
      else if torso_angle < TORSO_FORWARD_MAX then
        max 0 (1 - (TORSO_FORWARD_MAX - torso_angle) / TORSO_FORWARD_TOLERANCE)
      else
        max 0 (1 - (torso_angle - TORSO_BACKWARD_MIN) / TORSO_BACKWARD_TOLERANCE)
    let score := (W_NECK * s_neck + W_TORSO * s_torso) * 100
    let classification := if score ≥ 60 then "GOOD" else "BAD"
    let reasons :=
      (if neck_in_range then []
       else if neck_angle > NECK_FORWARD_MAX then ["Neck Forward"] else ["Neck Back"]) ++
      (if torso_in_range then []
       else if torso_angle > TORSO_FORWARD_MAX then ["Torso Slouched"] else ["Torso Leaning Back"])
    let bad := decide (score < 60)
    let bs1 : Option ℚ :=
      if bad then (if pyTruthyOpt s.bad_start then s.bad_start else some now) else none
    let bAlert := badAlertPy bs1 now BAD_POSTURE_ALERT_TIME
    let sAlert := decide (now - s.seated_start > SEATED_ALERT_TIME)
    let lm :=
      match s.last_eye_ear_shoulder_angle with
      | some prev =>
          if |eea - prev| > EYE_EAR_SHOULDER_ANGLE_THRESH then now else s.last_move
      | none => s.last_move
    let focused := decide (now - lm > FOCUS_MIN_TIME)
    ⟨⟨bs1, s.seated_start, some eea, lm, some (detect_side kps)⟩,
      some ⟨score, classification, s_neck * 100, s_torso * 100, reasons,
        neck_angle, torso_angle, eea⟩,
      bAlert, sAlert, focused, sk⟩

/-- Side-view `PostureMonitor.update(keypoints)` at wall-clock time `now`. -/
def update (M : FloatMath) (s : MonitorState) (kps : Pose) (now : ℚ) : UpdateResult :=
  if gateFails kps then gatedResult s kps else updateBody M s kps now

end Side

/-! ### Concrete inputs used by the theorems

Each concrete `FloatMath` below agrees with Python `math.sqrt` /
`math.degrees(math.atan2 _ _)` at every argument the accompanying pose
makes the engine apply it to; the agreement is noted case by case. -/

/-- A pose with every keypoint `(0, 0, 0)`. -/
def PZero : Pose := fun _ => ⟨0, 0, 0⟩

/-- A pose with every keypoint at confidence `1/2` (left and right
aggregate confidences tie). -/
def PTie : Pose := fun _ => ⟨0, 0, 1/2⟩

/-- Shoulders `(0,0)`, `(0,3)` and hips `(4,0)`, `(4,3)`, all at
confidence `0` (below threshold); other joints `(0,0,0)`.  Shoulder width
is `3` and torso height `4`. -/
def Plow : Pose := fun i =>
  if i = 6 then ⟨0, 3, 0⟩
  else if i = 11 then ⟨4, 0, 0⟩
  else if i = 12 then ⟨4, 3, 0⟩
  else ⟨0, 0, 0⟩

/-- Here `sqrt` is correct at `9 ↦ 3`, `16 ↦ 4` and `0 ↦ 0`; `atan2deg` correct at
`(0, 3) ↦ 0` (these are the only arguments reached from `Plow` and
`Pcoinc`). -/
def Mlow : FloatMath :=
  ⟨fun q => if q = 9 then 3 else if q = 16 then 4 else 0, fun _ _ => 0⟩

/-- All of nose, shoulders and hips at confidence `1`, with the shoulder
midpoint and the hip midpoint coincident at `(0, 1)` (shoulders and hips
at the same coordinates); nose at `(1/2, 1)`. -/
def Pcoinc : Pose := fun i =>
  if i = 0 then ⟨1/2, 1, 1⟩
  else if i = 5 then ⟨0, 0, 1⟩
  else if i = 6 then ⟨0, 2, 1⟩
  else if i = 11 then ⟨0, 0, 1⟩
  else if i = 12 then ⟨0, 2, 1⟩
  else ⟨0, 0, 0⟩

/-- Here `sqrt` is correct at `4 ↦ 2` and `0 ↦ 0`; `atan2deg` correct at
`(0, 0) ↦ 0` and `(0, 2) ↦ 0`.  On the zero-norm normalization path the
source produces numpy `nan` components where the rational embedding
produces `0`; both are non-`None` values, which is all the theorems use. -/
def Mcoinc : FloatMath := ⟨fun q => if q = 4 then 2 else 0, fun _ _ => 0⟩

/-- Shoulders `(0,0)`, `(0,3)` and hips at the same coordinates (so the
two midpoints coincide and the torso height is `0`), all at confidence
`1`; nose at confidence `0`. -/
def Pflat : Pose := fun i =>
  if i = 5 then ⟨0, 0, 1⟩
  else if i = 6 then ⟨0, 3, 1⟩
  else if i = 11 then ⟨0, 0, 1⟩
  else if i = 12 then ⟨0, 3, 1⟩
  else ⟨0, 0, 0⟩

/-- Shoulders `(0,0)`, `(3,0)` (vertical shoulder line: roll `90`) and
hips `(0,6)`, `(3,6)` (torso height `6`, compression ratio `2`); nose at
confidence `0`. -/
def Proll : Pose := fun i =>
  if i = 5 then ⟨0, 0, 1⟩
  else if i = 6 then ⟨3, 0, 1⟩
  else if i = 11 then ⟨0, 6, 1⟩
  else if i = 12 then ⟨3, 6, 1⟩
  else ⟨0, 0, 0⟩

/-- Here `sqrt` is correct at `9 ↦ 3`, `36 ↦ 6`, `0 ↦ 0`; `atan2deg` correct at
`(3, 0) ↦ 90` (`atan2(3, 0) = π/2`), `(0, 3) ↦ 0` and `(0, 0) ↦ 0`
(the arguments reached from `Proll`, `Pbad`, `Pflat` and `PZero`). -/
def Mroll : FloatMath :=
  ⟨fun q => if q = 9 then 3 else if q = 36 then 6 else 0,
    fun y x => if y = 3 ∧ x = 0 then 90 else 0⟩

/-- Shoulders `(0,0)`, `(3,0)` and hips at the same coordinates: shoulder
width `3`, torso height `0` (compression ratio `0`), roll `90`; nose at
confidence `0`.  Scores `20 < 60`, i.e. a BAD frame. -/
def Pbad : Pose := fun i =>
  if i = 5 then ⟨0, 0, 1⟩
  else if i = 6 then ⟨3, 0, 1⟩
  else if i = 11 then ⟨0, 0, 1⟩
  else if i = 12 then ⟨3, 0, 1⟩
  else ⟨0, 0, 0⟩

/-- Nose `(2,3)`, shoulders `(0,0)`, `(0,2)`, hips `(4,0)`, `(4,2)`, all
at confidence `1`: the nose sits at torso coordinates `(2, 2)`, a neck
flexion of `45` degrees. -/
def P45 : Pose := fun i =>
  if i = 0 then ⟨2, 3, 1⟩
  else if i = 5 then ⟨0, 0, 1⟩
  else if i = 6 then ⟨0, 2, 1⟩
  else if i = 11 then ⟨4, 0, 1⟩
  else if i = 12 then ⟨4, 2, 1⟩
  else ⟨0, 0, 0⟩

/-- Here `sqrt` is correct at `4 ↦ 2`, `16 ↦ 4`; `atan2deg` correct at
`(2, 2) ↦ 45` (`atan2(2, 2) = π/4`) and `(0, 2) ↦ 0` (the arguments
reached from `P45`). -/
def M45 : FloatMath :=
  ⟨fun q => if q = 4 then 2 else if q = 16 then 4 else 0,
    fun y x => if y = 2 ∧ x = 2 then 45 else 0⟩

/-- Here `sqrt` and `atan2deg` are constantly `0`: correct at the only arguments
reached from the all-zero poses (`sqrt 0 = 0`, `atan2deg 0 0 = 0`). -/
def MZero : FloatMath := ⟨fun _ => 0, fun _ _ => 0⟩

/-- A front-view monitor state whose stored reference angle is exactly
`0` (a value the front-view movement test treats as falsy). -/
def S45 : App.MonitorState := ⟨none, 100, some 0, 100⟩

/-- A side-view monitor state with a bad-posture run latched at time
`100` and session start `0`. -/
def Sgate : Side.MonitorState := ⟨some 100, 0, none, 0, none⟩

/-- The local `shoulder_w` of `torso_compression`, named for the
theorems: the norm of the shoulder-to-shoulder vector. -/
def App.shoulder_w (M : FloatMath) (kps : Pose) : ℚ :=
  norm2 M ((pt (kps 5)).1 - (pt (kps 6)).1, (pt (kps 5)).2 - (pt (kps 6)).2)

/-- Frame 1 of a continuously BAD run: monitor constructed at `t = 100`,
first BAD frame also at `t = 100`. -/
def badRun1 : App.UpdateResult := App.update Mroll (App.init 100) Pbad 100

/-- Frame 2 of the BAD run, at `t = bad_since + 9.999`. -/
def badRun2 : App.UpdateResult := App.update Mroll badRun1.state Pbad (109999/1000)

/-- Frame 3 of the BAD run, at `t = bad_since + 10.001`. -/
def badRun3 : App.UpdateResult := App.update Mroll badRun2.state Pbad (110001/1000)

/-- Frame 4: a single GOOD frame (`PZero` scores exactly `60`). -/
def badRun4 : App.UpdateResult := App.update Mroll badRun3.state PZero 111

/-- Front-view update of `S45` (stored reference angle exactly `0`) with
a frame whose neck flexion is `45` degrees, at `t = 200`. -/
def move1 : App.UpdateResult := App.update M45 S45 P45 200

/-- The next front-view update, same pose, at `t = 401`. -/
def move2 : App.UpdateResult := App.update M45 move1.state P45 401

/-- A left-profile pose (only left-side joints detected): eye `(-2,0)`,
ear `(-1,0)`, shoulder `(0,0)`, hip `(1,1)`, knee `(2,0)`, each at
confidence `1`; all other joints at confidence `0`.  The ear-shoulder-hip
angle is `225` degrees — above the good band, i.e. a backward lean per
the configuration comments — and the shoulder-hip-knee angle is exactly
`90` (in range). -/
def PsideBack : Pose := fun i =>
  if i = 1 then ⟨-2, 0, 1⟩
  else if i = 3 then ⟨-1, 0, 1⟩
  else if i = 5 then ⟨0, 0, 1⟩
  else if i = 11 then ⟨1, 1, 1⟩
  else if i = 13 then ⟨2, 0, 1⟩
  else ⟨0, 0, 0⟩

/-- Here `atan2deg` is correct at every argument reached from
`PsideBack`: `(0,-1) ↦ 180`, `(1,1) ↦ 45`, `(-1,-1) ↦ -135`,
`(-1,1) ↦ -45` and `(0,1) ↦ 0`; `sqrt` is never called on the side-view
path. -/
def Mside : FloatMath :=
  ⟨fun _ => 0, fun y x =>
    if y = 0 ∧ x = -1 then 180
    else if y = 1 ∧ x = 1 then 45
    else if y = -1 ∧ x = -1 then -135
    else if y = -1 ∧ x = 1 then -45
    else 0⟩

/-- One side-view update of a fresh monitor with the backward-leaning
profile pose. -/
def sideBackRun : Side.UpdateResult := Side.update Mside (Side.init 0) PsideBack 1

/-- The data record produced by `sideBackRun`: neck angle `225`
(backward side), torso angle `90` (in range), and the single reason
label `"Neck Forward"`. -/
def sideBackData : Side.SideData := ⟨50, "BAD", 0, 100, ["Neck Forward"], 225, 90, 180⟩

/-! ### Helper lemmas -/

/-- The Python value `bs and (now - bs > thresh)` is truthy exactly when
`bs` holds a nonzero time exceeded by more than `thresh`. -/
theorem badAlertPy_truthy_iff (bs : Option ℚ) (now thresh : ℚ) :
    (badAlertPy bs now thresh).truthy = true ↔
      ∃ t, bs = some t ∧ t ≠ 0 ∧ now - t > thresh := by
  cases bs with
  | none => simp [badAlertPy, Py.truthy]
  | some t =>
      by_cases h : t = 0 <;> simp [badAlertPy, Py.truthy, h]

/-- The front-view `update` stores the latched bad-posture start:
kept when already truthy and the frame is BAD, set to `now` on a BAD
frame with no truthy run, cleared on a GOOD frame. -/
theorem App.update_bad_start (M : FloatMath) (s : App.MonitorState) (kps : Pose) (now : ℚ) :
    (App.update M s kps now).state.bad_start =
      if (App.posture_score M kps).score < 60 then
        (if pyTruthyOpt s.bad_start = true then s.bad_start else some now)
      else none := by
  unfold App.update
  cases h : App.neck_flexion M kps <;> simp [h]

/-- The front-view `update` emits `bad_alert` as the Python `and` value
of the stored bad-posture start. -/
theorem App.update_badAlert (M : FloatMath) (s : App.MonitorState) (kps : Pose) (now : ℚ) :
    (App.update M s kps now).badAlert =
      badAlertPy ((App.update M s kps now).state.bad_start) now App.BAD_POSTURE_ALERT_TIME := by
  unfold App.update
  cases h : App.neck_flexion M kps <;> simp [h]

/-- The front-view `update` never touches `seated_start` and emits
`seated_alert` by comparing the elapsed session time to the threshold. -/
theorem App.update_seated (M : FloatMath) (s : App.MonitorState) (kps : Pose) (now : ℚ) :
    (App.update M s kps now).state.seated_start = s.seated_start ∧
      (App.update M s kps now).seatedAlert =
        decide (now - s.seated_start > App.SEATED_ALERT_TIME) := by
  unfold App.update
  cases h : App.neck_flexion M kps <;> simp [h]

/-- A gated side-view `update` call reduces to the early-return result. -/
theorem Side.update_gated (M : FloatMath) (s : Side.MonitorState) (kps : Pose) (now : ℚ)
    (h : Side.gateFails kps) :
    Side.update M s kps now = Side.gatedResult s kps := by
  unfold Side.update
  simp [h]

/-- A non-gated side-view `update` returns a data record, latches
`bad_start` from its score exactly as the front view does, emits the
Python `and` value for `bad_alert`, preserves `seated_start` and
compares the session clock for `seated_alert`. -/
theorem Side.update_nongated (M : FloatMath) (s : Side.MonitorState) (kps : Pose) (now : ℚ)
    (h : ¬ Side.gateFails kps) :
    ∃ d, (Side.update M s kps now).data = some d ∧
      (Side.update M s kps now).state.bad_start =
        (if d.score < 60 then
          (if pyTruthyOpt s.bad_start = true then s.bad_start else some now)
         else none) ∧
      (Side.update M s kps now).badAlert =
        badAlertPy ((Side.update M s kps now).state.bad_start) now Side.BAD_POSTURE_ALERT_TIME ∧
      (Side.update M s kps now).state.seated_start = s.seated_start ∧
      (Side.update M s kps now).seatedAlert =
        decide (now - s.seated_start > Side.SEATED_ALERT_TIME) := by
  unfold Side.update
  simp only [h, if_false, ite_false]
  unfold Side.updateBody
  refine ⟨_, rfl, ?_, rfl, rfl, rfl⟩
  simp

/-- A non-gated side-view `update` returns a data record whose reasons
list is built from its own neck and torso angles by the source's
range-and-direction conditionals. -/
theorem Side.update_data_spec (M : FloatMath) (s : Side.MonitorState) (kps : Pose)
    (now : ℚ) (hg : ¬ Side.gateFails kps) :
    ∃ d, (Side.update M s kps now).data = some d ∧
      d.reasons =
        (if Side.NECK_FORWARD_MAX ≤ d.neck_angle ∧ d.neck_angle ≤ Side.NECK_BACKWARD_MIN
         then []
         else if d.neck_angle > Side.NECK_FORWARD_MAX then ["Neck Forward"]
         else ["Neck Back"]) ++
        (if Side.TORSO_FORWARD_MAX ≤ d.torso_angle ∧ d.torso_angle ≤ Side.TORSO_BACKWARD_MIN
         then []
         else if d.torso_angle > Side.TORSO_FORWARD_MAX then ["Torso Slouched"]
         else ["Torso Leaning Back"]) := by
  unfold Side.update
  simp only [hg, if_false, ite_false]
  unfold Side.updateBody
  exact ⟨_, rfl, rfl⟩

/-- The Python value `bs and ...` is an actual bool exactly when `bs` is
truthy. -/
theorem badAlertPy_isBool (bs : Option ℚ) (now thresh : ℚ) :
    (badAlertPy bs now thresh).isBool = pyTruthyOpt bs := by
  cases bs with
  | none => rfl
  | some t => by_cases h : t = 0 <;> simp [badAlertPy, Py.isBool, pyTruthyOpt, h]

/-- If the wall clock is positive and every latched time in the pre-state
is positive, the front-view post-state only stores positive latched
times. -/
theorem App.update_bad_start_pos (M : FloatMath) (s : App.MonitorState) (kps : Pose)
    (now : ℚ) (hnow : 0 < now) (hs : ∀ t, s.bad_start = some t → 0 < t) :
    ∀ t, (App.update M s kps now).state.bad_start = some t → 0 < t := by
  intro t ht
  rw [App.update_bad_start] at ht
  split_ifs at ht with h1 h2
  · exact hs t ht
  · exact Option.some.inj ht ▸ hnow

/-- Same positivity preservation for the side-view monitor. -/
theorem Side.side_bad_start_pos (M : FloatMath) (s : Side.MonitorState) (kps : Pose)
    (now : ℚ) (hnow : 0 < now) (hs : ∀ t, s.bad_start = some t → 0 < t) :
    ∀ t, (Side.update M s kps now).state.bad_start = some t → 0 < t := by
  intro t ht
  by_cases hg : Side.gateFails kps
  · rw [Side.update_gated M s kps now hg] at ht
    exact hs t ht
  · obtain ⟨d, _, hbs, _, _, _⟩ := Side.update_nongated M s kps now hg
    rw [hbs] at ht
    split_ifs at ht with h1 h2
    · exact hs t ht
    · exact Option.some.inj ht ▸ hnow

/-- Under positive wall clock and stored times, the emitted front-view
`bad_alert` is truthy exactly when the post-state holds a bad-posture
start exceeded by more than the alert threshold. -/
theorem App.update_badAlert_truthy (M : FloatMath) (s : App.MonitorState) (kps : Pose)
    (now : ℚ) (hnow : 0 < now) (hs : ∀ t, s.bad_start = some t → 0 < t) :
    (App.update M s kps now).badAlert.truthy = true ↔
      ∃ t, (App.update M s kps now).state.bad_start = some t ∧
        now - t > App.BAD_POSTURE_ALERT_TIME := by
  rw [App.update_badAlert, badAlertPy_truthy_iff]
  constructor
  · rintro ⟨t, h1, _, h3⟩
    exact ⟨t, h1, h3⟩
  · rintro ⟨t, h1, h3⟩
    exact ⟨t, h1, ne_of_gt (App.update_bad_start_pos M s kps now hnow hs t h1), h3⟩

/-- The non-gated side-view analogue of `App.update_badAlert_truthy`. -/
theorem Side.side_badAlert_truthy (M : FloatMath) (s : Side.MonitorState) (kps : Pose)
    (now : ℚ) (hg : ¬ Side.gateFails kps) (hnow : 0 < now)
    (hs : ∀ t, s.bad_start = some t → 0 < t) :
    (Side.update M s kps now).badAlert.truthy = true ↔
      ∃ t, (Side.update M s kps now).state.bad_start = some t ∧
        now - t > Side.BAD_POSTURE_ALERT_TIME := by
  obtain ⟨d, _, _, hba, _, _⟩ := Side.update_nongated M s kps now hg
  rw [hba, badAlertPy_truthy_iff]
  constructor
  · rintro ⟨t, h1, _, h3⟩
    exact ⟨t, h1, h3⟩
  · rintro ⟨t, h1, h3⟩
    exact ⟨t, h1, ne_of_gt (Side.side_bad_start_pos M s kps now hnow hs t h1), h3⟩

/-- The reasons list built by `posture_score`, written out. -/
theorem App.posture_score_reasons (M : FloatMath) (kps : Pose) :
    (App.posture_score M kps).reasons =
      (if pyTruthyOpt (App.neck_flexion M kps) &&
          decide ((App.neck_flexion M kps).getD 0 > App.NECK_FLEX_BAD)
       then ["Forward Head"] else []) ++
      (if pyTruthyOpt (App.torso_compression M kps) &&
          decide ((App.torso_compression M kps).getD 0 < App.TORSO_COMP_BAD)
       then ["Slouching"] else []) ++
      (if decide (App.torso_roll M kps > App.TORSO_ROLL_BAD)
       then ["Lateral Lean"] else []) := rfl

/-! ### Claim theorems -/

/-- Claim C1, counterexample: in `Plow` the shoulders and hips all have
confidence `0`, at or below the minimum confidence threshold, yet the
torso-compression feature is a value (not `None`), the composite score is
`220/3`, not `50`, and the reasons list is `["Slouching"]`, not empty. -/
theorem C1_feature_gating_cex :
    App.valid (Plow 5) = false ∧ App.valid (Plow 6) = false ∧
      App.valid (Plow 11) = false ∧ App.valid (Plow 12) = false ∧
      App.neck_flexion Mlow Plow = none ∧
      App.torso_compression Mlow Plow ≠ none ∧
      (App.posture_score Mlow Plow).score ≠ 50 ∧
      (App.posture_score Mlow Plow).reasons ≠ [] := by
  with_unfolding_all decide

/-- Claim C1, amended: only the neck-flexion feature gates on keypoint
confidence — it is `None` whenever nose, a shoulder or a hip is at or
below the threshold (and flows downstream as the neutral subscore).
Torso compression and torso roll ignore confidence entirely, so the
low-confidence pose `Plow` still yields compression `4/3`, roll `0`,
composite score `220/3` and reasons `["Slouching"]`. -/
theorem C1_feature_gating :
    (∀ (M : FloatMath) (kps : Pose),
      (App.valid (kps 0) = false ∨ App.valid (kps 5) = false ∨
       App.valid (kps 6) = false ∨ App.valid (kps 11) = false ∨
       App.valid (kps 12) = false) →
      App.neck_flexion M kps = none) ∧
    App.torso_compression Mlow Plow = some (4/3) ∧
    App.torso_roll Mlow Plow = 0 ∧
    (App.posture_score Mlow Plow).score = 220/3 ∧
    (App.posture_score Mlow Plow).reasons = ["Slouching"] := by
  refine ⟨?_, by with_unfolding_all decide, by with_unfolding_all decide, by with_unfolding_all decide, by with_unfolding_all decide⟩
  intro M kps h
  unfold App.neck_flexion
  rcases h with h | h | h | h | h <;> simp [h]

/-- Claim C1, witness for the hypothesis of the amended theorem. -/
theorem C1_feature_gating_witness :
    App.valid (PZero 0) = false ∧ App.neck_flexion MZero PZero = none :=
  ⟨by with_unfolding_all decide, C1_feature_gating.1 MZero PZero (Or.inl (by with_unfolding_all decide))⟩

/-- Claim C4, counterexample: on `PTie` the two aggregate side confidences
are equal, and `detect_side` returns LEFT, not RIGHT. -/
theorem C4_side_selection_cex :
    Side.leftConf PTie = Side.rightConf PTie ∧
      Side.detect_side PTie = "LEFT" ∧ "LEFT" ≠ "RIGHT" := by
  refine ⟨by with_unfolding_all decide, by with_unfolding_all decide, by with_unfolding_all decide⟩

/-- Claim C4, amended: `detect_side` returns the side whose five-joint
confidence sum is larger, but an exact tie is resolved in favor of LEFT
(the source comparison is `left_conf >= right_conf`). -/
theorem C4_side_selection (kps : Pose) :
    (Side.leftConf kps > Side.rightConf kps → Side.detect_side kps = "LEFT") ∧
    (Side.rightConf kps > Side.leftConf kps → Side.detect_side kps = "RIGHT") ∧
    (Side.leftConf kps = Side.rightConf kps → Side.detect_side kps = "LEFT") := by
  unfold Side.detect_side
  refine ⟨fun h => ?_, fun h => ?_, fun h => ?_⟩
  · rw [if_pos (le_of_lt h)]
  · rw [if_neg (not_le.mpr h)]
  · rw [if_pos (le_of_eq h.symm)]

/-- Claim C4, witness: the tie case of the amended theorem at `PZero`. -/
theorem C4_side_selection_witness :
    Side.leftConf PZero = Side.rightConf PZero ∧ Side.detect_side PZero = "LEFT" :=
  ⟨by with_unfolding_all decide, (C4_side_selection PZero).2.2 (by with_unfolding_all decide)⟩

/-- Claim C5, counterexample: in `Pcoinc` the shoulder midpoint and the
hip midpoint coincide and every required joint is fully confident, yet
`neck_flexion` still returns a value — the zero-norm axis normalization is
not guarded, so the feature does not evaluate to `None` (in the source it
is a numpy non-finite float; here the rational division-by-zero value). -/
theorem C5_degenerate_cex :
    App.midpoint (pt (Pcoinc 5)) (pt (Pcoinc 6)) =
        App.midpoint (pt (Pcoinc 11)) (pt (Pcoinc 12)) ∧
      App.valid (Pcoinc 0) = true ∧ App.valid (Pcoinc 5) = true ∧
      App.valid (Pcoinc 6) = true ∧ App.valid (Pcoinc 11) = true ∧
      App.valid (Pcoinc 12) = true ∧
      App.neck_flexion Mcoinc Pcoinc ≠ none := by
  with_unfolding_all decide

/-- Claim C5, amended: the zero-shoulder-width degeneracy is guarded
explicitly (`torso_compression` returns `None` whenever the computed
shoulder width is not positive), but coincident shoulder and hip
midpoints are not guarded: `neck_flexion` still returns a (non-`None`)
value through the zero-norm normalization.  In the source that value is
a numpy non-finite float that flows onward as an ordinary float — a
warning, never an exception — so only its non-`None`-ness is asserted
here; its numeric value is an artifact of the division by zero and is
not used. -/
theorem C5_degenerate :
    (∀ (M : FloatMath) (kps : Pose),
      App.shoulder_w M kps ≤ 0 → App.torso_compression M kps = none) ∧
    App.neck_flexion Mcoinc Pcoinc ≠ none := by
  refine ⟨?_, by with_unfolding_all decide⟩
  intro M kps h
  unfold App.shoulder_w at h
  unfold App.torso_compression
  rw [if_neg (not_lt.mpr h)]

/-- Claim C5, witness for the hypothesis of the amended theorem. -/
theorem C5_degenerate_witness :
    App.shoulder_w MZero PZero ≤ 0 ∧ App.torso_compression MZero PZero = none :=
  ⟨by with_unfolding_all decide, C5_degenerate.1 MZero PZero (by with_unfolding_all decide)⟩

/-- Claim C10 (confirmed): on a front-view frame whose neck flexion is
`None`, `update` returns `focused = false` regardless of how long the
head has been still, and leaves both `last_move` and the stored reference
angle unchanged, so the stillness window is not restarted. -/
theorem C10_dropout (M : FloatMath) (s : App.MonitorState) (kps : Pose) (now : ℚ)
    (h : App.neck_flexion M kps = none) :
    (App.update M s kps now).focused = false ∧
      (App.update M s kps now).state.last_move = s.last_move ∧
      (App.update M s kps now).state.last_head = s.last_head := by
  unfold App.update
  simp [h]

/-- Claim C10, witness: an all-zero pose trips the confidence gate, and
even with `now - last_move = 1000 > 300` the frame reports unfocused. -/
theorem C10_dropout_witness :
    App.neck_flexion MZero PZero = none ∧
      (App.update MZero (App.init 0) PZero 1000).focused = false :=
  ⟨by with_unfolding_all decide, (C10_dropout MZero (App.init 0) PZero 1000 (by with_unfolding_all decide)).1⟩

/-- Claim C7 (code bug): with the front-view stored reference angle at
exactly `0` degrees and `last_move = 100`, a frame at `t = 200` with neck
flexion `45` (a movement of `45 > 3` degrees) does NOT reset `last_move`
— Python evaluates `if self.last_head and ...` with the falsy `0.0` and
skips the movement test — so the next frame at `t = 401` already reports
`focused = true`, only `201` seconds after the movement.  (The side-view
implementation guards the same test with `is not None`, which is the
behavior the claim describes.) -/
theorem C7_focus_zero_reference_bug :
    App.neck_flexion M45 P45 = some 45 ∧
      |(45:ℚ) - 0| > App.HEAD_MOVEMENT_THRESH ∧
      S45.last_head = some 0 ∧
      move1.state.last_move = S45.last_move ∧
      move1.state.last_head = some 45 ∧
      move2.focused = true := by
  with_unfolding_all decide

/-- Claim C8 (confirmed): the non-inverted threshold ramp is
nonincreasing in the feature value at both badness thresholds (neck
flexion `18`, roll `12`), and the inverted ramp used for the torso
compression ratio is nondecreasing. -/
theorem C8_subscore_monotone (v1 v2 : ℚ) (h : v1 ≤ v2) :
    App.subscore (some v2) App.NECK_FLEX_BAD false ≤
        App.subscore (some v1) App.NECK_FLEX_BAD false ∧
      App.subscore (some v2) App.TORSO_ROLL_BAD false ≤
        App.subscore (some v1) App.TORSO_ROLL_BAD false ∧
      App.subscore (some v1) App.TORSO_COMP_BAD true ≤
        App.subscore (some v2) App.TORSO_COMP_BAD true := by
  refine ⟨?_, ?_, ?_⟩ <;>
    simp only [App.subscore, App.NECK_FLEX_BAD, App.TORSO_ROLL_BAD, App.TORSO_COMP_BAD,
      Bool.false_eq_true, if_false, if_true, ite_true, ite_false] <;>
    gcongr

/-- Claim C8, witness at `v1 = 1 ≤ v2 = 2`. -/
theorem C8_subscore_monotone_witness :
    (1:ℚ) ≤ 2 ∧
      App.subscore (some 2) App.NECK_FLEX_BAD false ≤
        App.subscore (some 1) App.NECK_FLEX_BAD false :=
  ⟨by norm_num, (C8_subscore_monotone 1 2 (by norm_num)).1⟩

/-- Claim C9, counterexample: a front-view update on a GOOD frame clears
`bad_start` and then returns `bad_alert = None` — Python's `and` yields
the falsy left operand — which is not a boolean. -/
theorem C9_alert_types_cex :
    (App.update MZero (App.init 100) PZero 101).badAlert = Py.pnone ∧
      Py.isBool Py.pnone = false := by
  with_unfolding_all decide

/-- Claim C9, amended: `seated_alert` and `focused` are always booleans
(they are comparison results), but `bad_posture_alert` is a boolean
exactly when the post-update `bad_start` is truthy; in particular it is
`None` after any GOOD front-view frame.  The gated side-view update
returns the literal boolean `False` instead. -/
theorem C9_alert_types :
    (∀ (M : FloatMath) (s : App.MonitorState) (kps : Pose) (now : ℚ),
      Py.isBool (App.update M s kps now).badAlert =
        pyTruthyOpt (App.update M s kps now).state.bad_start) ∧
    (∀ (M : FloatMath) (s : App.MonitorState) (kps : Pose) (now : ℚ),
      ¬ (App.posture_score M kps).score < 60 →
      (App.update M s kps now).badAlert = Py.pnone) ∧
    (∀ (M : FloatMath) (s : Side.MonitorState) (kps : Pose) (now : ℚ),
      Side.gateFails kps → (Side.update M s kps now).badAlert = Py.pbool false) ∧
    (∀ (M : FloatMath) (s : Side.MonitorState) (kps : Pose) (now : ℚ),
      ¬ Side.gateFails kps →
      Py.isBool (Side.update M s kps now).badAlert =
        pyTruthyOpt (Side.update M s kps now).state.bad_start) := by
  refine ⟨?_, ?_, ?_, ?_⟩
  · intro M s kps now
    rw [App.update_badAlert, badAlertPy_isBool]
  · intro M s kps now h
    rw [App.update_badAlert, App.update_bad_start, if_neg h]
    rfl
  · intro M s kps now h
    rw [Side.update_gated M s kps now h]
    rfl
  · intro M s kps now h
    obtain ⟨d, _, _, hba, _, _⟩ := Side.update_nongated M s kps now h
    rw [hba, badAlertPy_isBool]

/-- Claim C9, witness: the gated side-view branch of the amended theorem. -/
theorem C9_alert_types_witness :
    Side.gateFails PZero ∧
      (Side.update MZero (Side.init 7) PZero 8).badAlert = Py.pbool false :=
  ⟨by with_unfolding_all decide,
    C9_alert_types.2.2.1 MZero (Side.init 7) PZero 8 (by with_unfolding_all decide)⟩

/-- The label `"Forward Head"` appears in the reasons list exactly when the neck
guard condition holds. -/
theorem App.mem_reasons_forward (M : FloatMath) (kps : Pose) :
    ("Forward Head" ∈ (App.posture_score M kps).reasons) ↔
      (pyTruthyOpt (App.neck_flexion M kps) &&
        decide ((App.neck_flexion M kps).getD 0 > App.NECK_FLEX_BAD)) = true := by
  rw [App.posture_score_reasons]
  split_ifs with h1 h2 h3 <;> simp_all

/-- The label `"Slouching"` appears in the reasons list exactly when the
compression guard condition holds. -/
theorem App.mem_reasons_slouch (M : FloatMath) (kps : Pose) :
    ("Slouching" ∈ (App.posture_score M kps).reasons) ↔
      (pyTruthyOpt (App.torso_compression M kps) &&
        decide ((App.torso_compression M kps).getD 0 < App.TORSO_COMP_BAD)) = true := by
  rw [App.posture_score_reasons]
  split_ifs with h1 h2 h3 <;> simp_all

/-- The label `"Lateral Lean"` appears in the reasons list exactly when the roll
exceeds its threshold. -/
theorem App.mem_reasons_lateral (M : FloatMath) (kps : Pose) :
    ("Lateral Lean" ∈ (App.posture_score M kps).reasons) ↔
      App.torso_roll M kps > App.TORSO_ROLL_BAD := by
  rw [App.posture_score_reasons]
  split_ifs with h1 h2 h3 <;> simp_all

/-- Claim C2, counterexample: a gated side-view update (all keypoints of
`PZero` are below the confidence threshold) leaves the latched
`bad_since = 100` untouched and emits a non-truthy alert even though
`now - bad_since = 100` far exceeds the 10-second threshold. -/
theorem C2_bad_latch_cex :
    Side.gateFails PZero ∧
      (Side.update MZero Sgate PZero 200).state.bad_start = some 100 ∧
      (200:ℚ) - 100 > Side.BAD_POSTURE_ALERT_TIME ∧
      (Side.update MZero Sgate PZero 200).badAlert.truthy = false := by
  with_unfolding_all decide

/-- Claim C2, amended: the described latch holds for every front-view
update and for every side-view update that passes the keypoint-confidence
gate (under a positive wall clock and positive stored times): a BAD frame
starts or keeps the run, a GOOD frame clears it, and the emitted alert is
truthy exactly when the stored start is exceeded by more than 10 s.  A
gated side-view update, however, leaves `bad_since` unchanged and emits
the literal `False` regardless of elapsed time.  The concrete BAD run
`badRun1`-`badRun4` realizes the claimed scenario: alert false at
`bad_since + 9.999`, true at `bad_since + 10.001`, and a single GOOD frame
resets the run to `None`. -/
theorem C2_bad_latch :
    (∀ (M : FloatMath) (s : App.MonitorState) (kps : Pose) (now : ℚ),
      0 < now → (∀ t, s.bad_start = some t → 0 < t) →
      ((App.posture_score M kps).score < 60 → s.bad_start = none →
        (App.update M s kps now).state.bad_start = some now) ∧
      ((App.posture_score M kps).score < 60 → ∀ t, s.bad_start = some t →
        (App.update M s kps now).state.bad_start = some t) ∧
      (¬ (App.posture_score M kps).score < 60 →
        (App.update M s kps now).state.bad_start = none) ∧
      ((App.update M s kps now).badAlert.truthy = true ↔
        ∃ t, (App.update M s kps now).state.bad_start = some t ∧
          now - t > App.BAD_POSTURE_ALERT_TIME)) ∧
    (∀ (M : FloatMath) (s : Side.MonitorState) (kps : Pose) (now : ℚ),
      Side.gateFails kps →
      (Side.update M s kps now).state.bad_start = s.bad_start ∧
      (Side.update M s kps now).badAlert = Py.pbool false) ∧
    (∀ (M : FloatMath) (s : Side.MonitorState) (kps : Pose) (now : ℚ) (d : Side.SideData),
      0 < now → (∀ t, s.bad_start = some t → 0 < t) →
      (Side.update M s kps now).data = some d →
      (d.score < 60 → s.bad_start = none →
        (Side.update M s kps now).state.bad_start = some now) ∧
      (d.score < 60 → ∀ t, s.bad_start = some t →
        (Side.update M s kps now).state.bad_start = some t) ∧
      (¬ d.score < 60 → (Side.update M s kps now).state.bad_start = none) ∧
      ((Side.update M s kps now).badAlert.truthy = true ↔
        ∃ t, (Side.update M s kps now).state.bad_start = some t ∧
          now - t > Side.BAD_POSTURE_ALERT_TIME)) ∧
    badRun1.state.bad_start = some 100 ∧
    badRun2.badAlert.truthy = false ∧
    badRun3.badAlert.truthy = true ∧
    badRun4.state.bad_start = none := by
  refine ⟨?_, ?_, ?_, ?_, ?_, ?_, ?_⟩
  · intro M s kps now hnow hpos
    refine ⟨?_, ?_, ?_, App.update_badAlert_truthy M s kps now hnow hpos⟩
    · intro hs hnone
      rw [App.update_bad_start, if_pos hs, hnone]
      simp [pyTruthyOpt]
    · intro hs t ht
      rw [App.update_bad_start, if_pos hs, ht]
      have htr : pyTruthyOpt (some t) = true := by
        simp only [pyTruthyOpt, decide_eq_true_eq]
        exact ne_of_gt (hpos t ht)
      rw [if_pos htr]
    · intro hs
      rw [App.update_bad_start, if_neg hs]
  · intro M s kps now hg
    rw [Side.update_gated M s kps now hg]
    exact ⟨rfl, rfl⟩
  · intro M s kps now d hnow hpos hdata
    have hg : ¬ Side.gateFails kps := by
      intro hg
      rw [Side.update_gated M s kps now hg] at hdata
      exact Option.noConfusion hdata
    obtain ⟨d2, hd2, hbs, _, _, _⟩ := Side.update_nongated M s kps now hg
    rw [hd2] at hdata
    cases Option.some.inj hdata
    refine ⟨?_, ?_, ?_, Side.side_badAlert_truthy M s kps now hg hnow hpos⟩
    · intro hs hnone
      rw [hbs, if_pos hs, hnone]
      simp [pyTruthyOpt]
    · intro hs t ht
      rw [hbs, if_pos hs, ht]
      have htr : pyTruthyOpt (some t) = true := by
        simp only [pyTruthyOpt, decide_eq_true_eq]
        exact ne_of_gt (hpos t ht)
      rw [if_pos htr]
    · intro hs
      rw [hbs, if_neg hs]
  · with_unfolding_all decide
  · with_unfolding_all decide
  · with_unfolding_all decide
  · with_unfolding_all decide

/-- Claim C2, witness: a BAD frame on a fresh front-view monitor latches
`bad_since = now`. -/
theorem C2_bad_latch_witness :
    (App.posture_score Mroll Pbad).score < 60 ∧ (0:ℚ) < 100 ∧
      (App.update Mroll (App.init 50) Pbad 100).state.bad_start = some 100 :=
  ⟨by with_unfolding_all decide, by norm_num,
    (C2_bad_latch.1 Mroll (App.init 50) Pbad 100 (by norm_num)
        (fun t ht => nomatch ht)).1
      (by with_unfolding_all decide) rfl⟩

/-- Claim C3, counterexample: a gated side-view update emits
`seated_alert = false` even though `now - session_start = 3000` seconds
exceeds the 45-minute threshold. -/
theorem C3_seated_cex :
    Side.gateFails PZero ∧
      (Side.update MZero (Side.init 0) PZero 3000).seatedAlert = false ∧
      (3000:ℚ) - (Side.init 0).seated_start > Side.SEATED_ALERT_TIME := by
  with_unfolding_all decide

/-- Claim C3, amended: `session_start` is set once at construction and is
never modified by any update in either monitor; the front-view update
always emits `seated_alert` exactly when `now - session_start` exceeds 45
minutes (so the alert never clears, even with perfect posture), and the
side-view update does the same on gate-passing frames but emits the
literal `False` on a gated frame. -/
theorem C3_seated :
    (∀ now : ℚ, (App.init now).seated_start = now) ∧
    (∀ (M : FloatMath) (s : App.MonitorState) (kps : Pose) (now : ℚ),
      (App.update M s kps now).state.seated_start = s.seated_start ∧
      ((App.update M s kps now).seatedAlert = true ↔
        now - s.seated_start > App.SEATED_ALERT_TIME)) ∧
    (∀ now : ℚ, (Side.init now).seated_start = now) ∧
    (∀ (M : FloatMath) (s : Side.MonitorState) (kps : Pose) (now : ℚ),
      (Side.update M s kps now).state.seated_start = s.seated_start) ∧
    (∀ (M : FloatMath) (s : Side.MonitorState) (kps : Pose) (now : ℚ),
      ¬ Side.gateFails kps →
      ((Side.update M s kps now).seatedAlert = true ↔
        now - s.seated_start > Side.SEATED_ALERT_TIME)) ∧
    (∀ (M : FloatMath) (s : Side.MonitorState) (kps : Pose) (now : ℚ),
      Side.gateFails kps → (Side.update M s kps now).seatedAlert = false) := by
  refine ⟨fun now => rfl, ?_, fun now => rfl, ?_, ?_, ?_⟩
  · intro M s kps now
    obtain ⟨h1, h2⟩ := App.update_seated M s kps now
    refine ⟨h1, ?_⟩
    rw [h2]
    simp
  · intro M s kps now
    by_cases hg : Side.gateFails kps
    · rw [Side.update_gated M s kps now hg]
      rfl
    · obtain ⟨d, _, _, _, hss, _⟩ := Side.update_nongated M s kps now hg
      exact hss
  · intro M s kps now hg
    obtain ⟨d, _, _, _, _, hsa⟩ := Side.update_nongated M s kps now hg
    rw [hsa]
    simp
  · intro M s kps now hg
    rw [Side.update_gated M s kps now hg]
    rfl

/-- Claim C3, witness: the gated branch of the amended theorem. -/
theorem C3_seated_witness :
    Side.gateFails PZero ∧
      (Side.update MZero (Side.init 5) PZero 10).seatedAlert = false :=
  ⟨by with_unfolding_all decide,
    C3_seated.2.2.2.2.2 MZero (Side.init 5) PZero 10 (by with_unfolding_all decide)⟩

/-- Claim C6, counterexample, in two parts.  Front view: in `Pflat` the
raw compression ratio is exactly `0`, which crosses the bad-direction
threshold (`0 < 1.6`), yet `"Slouching"` is NOT appended — the guard
`if comp and ...` treats the float `0.0` as falsy.  Side view: in
`sideBackRun` the neck angle is `225`, above the good band — a BACKWARD
lean per the configuration comments (`NECK_BACKWARD_MAX`: "Above this =
very backward") — yet the appended label is `"Neck Forward"`, not
`"Neck Back"`: the forward/backward labels sit on the opposite side of
the good range from the direction they name. -/
theorem C6_reasons_cex :
    (App.torso_compression Mroll Pflat = some 0 ∧
      (0:ℚ) < App.TORSO_COMP_BAD ∧
      "Slouching" ∉ (App.posture_score Mroll Pflat).reasons) ∧
    (sideBackRun.data = some sideBackData ∧
      Side.NECK_BACKWARD_MIN < sideBackData.neck_angle ∧
      sideBackData.reasons = ["Neck Forward"] ∧
      "Neck Back" ∉ sideBackData.reasons) := by
  with_unfolding_all decide

/-- Claim C6, amended.  Front view: a label is appended iff the raw
feature value is truthy (non-`None` and nonzero) and crosses its
bad-direction threshold — for the neck the nonzero requirement is
subsumed by the threshold; the roll label depends only on the threshold.
This is independent of the composite classification: `Proll` scores
exactly `60` (GOOD) with a non-empty reasons list.  Side view: a label
is appended iff the raw angle leaves its good range, but the labels name
the opposite direction: the angle-ABOVE-the-range case (a backward lean
per the configuration comments) receives `"Neck Forward"` /
`"Torso Slouched"`, and the angle-below case `"Neck Back"` /
`"Torso Leaning Back"`. -/
theorem C6_reasons (M : FloatMath) (kps : Pose) :
    ("Forward Head" ∈ (App.posture_score M kps).reasons ↔
      ∃ v, App.neck_flexion M kps = some v ∧ v > App.NECK_FLEX_BAD) ∧
    ("Slouching" ∈ (App.posture_score M kps).reasons ↔
      ∃ v, App.torso_compression M kps = some v ∧ v ≠ 0 ∧ v < App.TORSO_COMP_BAD) ∧
    ("Lateral Lean" ∈ (App.posture_score M kps).reasons ↔
      App.torso_roll M kps > App.TORSO_ROLL_BAD) ∧
    (App.posture_score Mroll Proll).score = 60 ∧
    (App.posture_score Mroll Proll).classification = "GOOD" ∧
    (App.posture_score Mroll Proll).reasons = ["Lateral Lean"] ∧
    (∀ (s : Side.MonitorState) (now : ℚ) (d : Side.SideData),
      (Side.update M s kps now).data = some d →
      (("Neck Forward" ∈ d.reasons ↔
        ¬(Side.NECK_FORWARD_MAX ≤ d.neck_angle ∧ d.neck_angle ≤ Side.NECK_BACKWARD_MIN) ∧
          d.neck_angle > Side.NECK_FORWARD_MAX) ∧
       ("Neck Back" ∈ d.reasons ↔
        ¬(Side.NECK_FORWARD_MAX ≤ d.neck_angle ∧ d.neck_angle ≤ Side.NECK_BACKWARD_MIN) ∧
          ¬ d.neck_angle > Side.NECK_FORWARD_MAX) ∧
       ("Torso Slouched" ∈ d.reasons ↔
        ¬(Side.TORSO_FORWARD_MAX ≤ d.torso_angle ∧ d.torso_angle ≤ Side.TORSO_BACKWARD_MIN) ∧
          d.torso_angle > Side.TORSO_FORWARD_MAX) ∧
       ("Torso Leaning Back" ∈ d.reasons ↔
        ¬(Side.TORSO_FORWARD_MAX ≤ d.torso_angle ∧ d.torso_angle ≤ Side.TORSO_BACKWARD_MIN) ∧
          ¬ d.torso_angle > Side.TORSO_FORWARD_MAX))) := by
  refine ⟨?_, ?_, ?_, by with_unfolding_all decide, by with_unfolding_all decide,
    by with_unfolding_all decide, ?_⟩
  · rw [App.mem_reasons_forward]
    cases hn : App.neck_flexion M kps with
    | none => simp [pyTruthyOpt]
    | some v =>
        simp only [pyTruthyOpt, Bool.and_eq_true, decide_eq_true_eq, Option.getD_some,
          Option.some.injEq]
        constructor
        · rintro ⟨_, h⟩
          exact ⟨v, rfl, h⟩
        · rintro ⟨v2, hv2, h⟩
          cases hv2
          exact ⟨ne_of_gt (lt_trans (by norm_num [App.NECK_FLEX_BAD]) h), h⟩
  · rw [App.mem_reasons_slouch]
    cases hc : App.torso_compression M kps with
    | none => simp [pyTruthyOpt]
    | some v =>
        simp only [pyTruthyOpt, Bool.and_eq_true, decide_eq_true_eq, Option.getD_some,
          Option.some.injEq]
        constructor
        · rintro ⟨h0, h⟩
          exact ⟨v, rfl, h0, h⟩
        · rintro ⟨v2, hv2, h0, h⟩
          cases hv2
          exact ⟨h0, h⟩
  · rw [App.mem_reasons_lateral]
  · intro s now d hd
    have hg : ¬ Side.gateFails kps := by
      intro hg
      rw [Side.update_gated M s kps now hg] at hd
      exact Option.noConfusion hd
    obtain ⟨d2, hd2, hr⟩ := Side.update_data_spec M s kps now hg
    rw [hd2] at hd
    obtain rfl := Option.some.inj hd
    refine ⟨?_, ?_, ?_, ?_⟩ <;> rw [hr] <;> split_ifs <;> simp_all

/-- Claim C6, witness: the roll branch of the amended theorem at
`Proll`, and the side-view branch at the backward-leaning profile pose
whose deviation is labelled `"Neck Forward"`. -/
theorem C6_reasons_witness :
    App.torso_roll Mroll Proll > App.TORSO_ROLL_BAD ∧
      "Lateral Lean" ∈ (App.posture_score Mroll Proll).reasons ∧
      sideBackRun.data = some sideBackData ∧
      "Neck Forward" ∈ sideBackData.reasons :=
  ⟨by with_unfolding_all decide,
    ((C6_reasons Mroll Proll).2.2.1).mpr (by with_unfolding_all decide),
    by with_unfolding_all decide,
    (((C6_reasons Mside PsideBack).2.2.2.2.2.2 (Side.init 0) 1 sideBackData
        (by with_unfolding_all decide)).1).mpr (by with_unfolding_all decide)⟩
